import Mathlib

/-!
Verification of the fragment streaming / culling / lifecycle wiring of the
viewer (src/src/main.ts) against its specification.

The embedding models the state that `main.ts` itself mutates:

* `world.meshes` (the Fragment Store of the spec) as a list of meshes in
  insertion order (a JS `Set` iterates in insertion order, which fixes which
  mesh `find` returns);
* the visibility culler `culler` (threshold 5): its registered meshes and its
  `needsUpdate` flag;
* the streaming loader `tilesLoader` (`OBF.IfcStreamer`): its culler's
  registered meshes, its culler's `needsUpdate` flag and its `cancel` flag;
* the scene graph children (`world.scene.three`), by model identifier;
* the pending `setTimeout` camera fits and the fit requests actually issued.

Event handlers from `main.ts` become pure state transformers.  Behaviour that
lives in the `@thatopen` libraries rather than in `src/` (the streamed-fragment
residency lifecycle, the highlighter's `select`, the lazy culler update) is
modelled from the spec; each such definition carries a doc comment starting
with `Modelled from the spec:`.
-/

/-- A renderable mesh; only its identity (`uuid`) matters to `main.ts`, which
compares meshes by `mesh.uuid === fragmentID`. -/
structure Mesh where
  uuid : Nat
deriving DecidableEq, Repr

/-- A fragment owns exactly one mesh (`fragment.mesh` in the source). -/
structure Fragment where
  mesh : Mesh
deriving DecidableEq, Repr

/-- A loaded model as the `onFragmentsLoaded` handler sees it: its identity,
the `hasProperties` and `isStreamed` flags, and its `items` (fragments). -/
structure Model where
  id : Nat
  hasProperties : Bool
  isStreamed : Bool
  items : List Fragment
deriving DecidableEq, Repr

/-- The camera-fit margin passed in `world.camera.fit(world.meshes, 0.8)`,
represented exactly as the rational 4/5. -/
def fitMargin : Rat := 4 / 5

/-- The settling delay of the scheduled camera fit, `setTimeout(..., 50)`. -/
def fitDelayMs : Nat := 50

/-- A camera-fit request: the meshes it was asked to bound and the margin. -/
structure FitRequest where
  targets : List Mesh
  margin : Rat
deriving DecidableEq

/-- The mutable state of `main.ts` that the claims are about. -/
structure ViewerState where
  /-- `world.meshes`, in insertion order. -/
  meshes : List Mesh
  /-- meshes registered with the visibility culler (`culler.add`). -/
  cullerMeshes : List Mesh
  /-- `culler.needsUpdate`. -/
  cullerNeedsUpdate : Bool
  /-- meshes registered with the streaming culler (`tilesLoader.culler`);
  `main.ts` never adds to it. -/
  tilesCullerMeshes : List Mesh
  /-- `tilesLoader.culler.needsUpdate`. -/
  tilesCullerNeedsUpdate : Bool
  /-- `tilesLoader.cancel`, the cooperative cancel flag. -/
  tilesCancel : Bool
  /-- identifiers of models added to `world.scene.three`. -/
  sceneChildren : List Nat
  /-- scheduled (not yet fired) `setTimeout` camera fits. -/
  pendingFits : Nat
  /-- camera-fit requests issued so far. -/
  fitRequests : List FitRequest
deriving DecidableEq

/-- Addition to a JS `Set`: appends at the end unless already present. -/
def setAdd (x : Mesh) (l : List Mesh) : List Mesh :=
  if x ∈ l then l else l ++ [x]

/-- Addition of a model id to the scene children, `Set`-like. -/
def setAddNat (n : Nat) (l : List Nat) : List Nat :=
  if n ∈ l then l else l ++ [n]

/-- The loop `for (const fragment of model.items) ... add(fragment.mesh)`. -/
def addMeshes (frags : List Fragment) (l : List Mesh) : List Mesh :=
  frags.foldl (fun acc f => setAdd f.mesh acc) l

/-- Removal of the first mesh whose uuid matches, mirroring
`[...world.meshes].find((mesh) => mesh.uuid === fragmentID)` followed by
`world.meshes.delete(mesh)`; when nothing matches, nothing happens. -/
def removeFirstUuid (id : Nat) : List Mesh → List Mesh
  | [] => []
  | m :: ms => if m.uuid = id then ms else m :: removeFirstUuid id ms

/-- The `for (const fragmentID of fragmentIDs)` loop of the disposed handler. -/
def disposeMeshes (fragmentIDs : List Nat) (ms : List Mesh) : List Mesh :=
  fragmentIDs.foldl (fun acc id => removeFirstUuid id acc) ms

/-- The `fragments.onFragmentsDisposed` handler (main.ts lines 141 to 148):
for each fragment identifier, find the first mesh of `world.meshes` with that
uuid and delete it; no other state is touched. -/
def onFragmentsDisposed (fragmentIDs : List Nat) (s : ViewerState) : ViewerState :=
  { s with meshes := disposeMeshes fragmentIDs s.meshes }

/-- The `"rest"` listener on `world.camera.controls` (main.ts lines 111 to
115): sets `culler.needsUpdate`, `tilesLoader.cancel` and
`tilesLoader.culler.needsUpdate`. -/
def restListener (s : ViewerState) : ViewerState :=
  { s with cullerNeedsUpdate := true
           tilesCancel := true
           tilesCullerNeedsUpdate := true }

/-- The body of the `fragments.onFragmentsLoaded` handler after the indexing
step succeeded (main.ts lines 124 to 137): for a non-streamed model every
fragment mesh is added to `world.meshes` and to the visibility culler, the
model is added to the scene, and one camera fit is scheduled; for a streamed
model only the scene addition happens. -/
def loadedBody (m : Model) (s : ViewerState) : ViewerState :=
  let s1 := if m.isStreamed then s else
    { s with meshes := addMeshes m.items s.meshes
             cullerMeshes := addMeshes m.items s.cullerMeshes }
  let s2 := { s1 with sceneChildren := setAddNat m.id s1.sceneChildren }
  if m.isStreamed then s2 else { s2 with pendingFits := s2.pendingFits + 1 }

/-- Error message standing for the rejection of `indexer.process(model)`. -/
def indexError : String := "IfcRelationsIndexer.process rejected"

/-- The full `fragments.onFragmentsLoaded` handler (main.ts lines 118 to 138).
The handler first runs `await indexer.process(model); classifier.byEntity(model)`
when `model.hasProperties`, with no `try`/`catch`: `indexOk` is the outcome of
that external step, and when it is `false` the exception aborts the handler
before any geometry registration, propagating as a rejected promise
(`Except.error`). -/
def onFragmentsLoaded (indexOk : Bool) (m : Model) (s : ViewerState) :
    Except String ViewerState :=
  if m.hasProperties = true ∧ indexOk = false then Except.error indexError
  else Except.ok (loadedBody m s)

/-- Firing one pending `setTimeout` camera fit: the fit is computed over
`world.meshes` as it stands at firing time, with margin `0.8`. -/
def fireFitTimer (s : ViewerState) : ViewerState :=
  if s.pendingFits = 0 then s
  else { s with pendingFits := s.pendingFits - 1
                fitRequests := s.fitRequests ++ [⟨s.meshes, fitMargin⟩] }

/-- Modelled from the spec: the visibility culler (library code, not under
src/) recomputes lazily, exactly when its `needsUpdate` flag is set, clearing
the flag; the boolean reports whether an evaluation ran. -/
def cullerUpdate (s : ViewerState) : ViewerState × Bool :=
  if s.cullerNeedsUpdate then ({ s with cullerNeedsUpdate := false }, true)
  else (s, false)

/-! helper lemmas about mesh's `Set` addition and removal -/

theorem mem_setAdd_self (x : Mesh) (l : List Mesh) : x ∈ setAdd x l := by
  unfold setAdd
  split
  · assumption
  · simp

theorem mem_setAdd_of_mem {a : Mesh} {l : List Mesh} (x : Mesh) (h : a ∈ l) :
    a ∈ setAdd x l := by
  unfold setAdd
  split
  · exact h
  · simp [h]

theorem mem_addMeshes_of_mem {a : Mesh} {l : List Mesh} (frags : List Fragment)
    (h : a ∈ l) : a ∈ addMeshes frags l := by
  induction frags generalizing l with
  | nil => exact h
  | cons g rest ih => exact ih (mem_setAdd_of_mem g.mesh h)

theorem mem_addMeshes_of_mem_frags {f : Fragment} {frags : List Fragment}
    (l : List Mesh) (h : f ∈ frags) : f.mesh ∈ addMeshes frags l := by
  induction frags generalizing l with
  | nil => cases h
  | cons g rest ih =>
    rcases List.mem_cons.mp h with h1 | h2
    · subst h1
      exact mem_addMeshes_of_mem rest (mem_setAdd_self f.mesh l)
    · exact ih (setAdd g.mesh l) h2

theorem removeFirstUuid_sublist (id : Nat) (l : List Mesh) :
    (removeFirstUuid id l).Sublist l := by
  induction l with
  | nil => simp [removeFirstUuid]
  | cons m ms ih =>
    unfold removeFirstUuid
    split
    · exact (List.sublist_cons_self m ms)
    · exact ih.cons₂ m

theorem removeFirstUuid_of_not_mem {id : Nat} {l : List Mesh}
    (h : ∀ m ∈ l, m.uuid ≠ id) : removeFirstUuid id l = l := by
  induction l with
  | nil => rfl
  | cons m ms ih =>
    unfold removeFirstUuid
    rw [if_neg (h m (List.mem_cons_self m ms)), ih]
    intro x hx
    exact h x (List.mem_cons_of_mem m hx)

theorem removeFirstUuid_clears {id : Nat} {l : List Mesh}
    (hnd : (l.map Mesh.uuid).Nodup) :
    ∀ m ∈ removeFirstUuid id l, m.uuid ≠ id := by
  induction l with
  | nil => intro m hm; cases hm
  | cons x xs ih =>
    rw [List.map_cons, List.nodup_cons] at hnd
    intro m hm
    unfold removeFirstUuid at hm
    by_cases hx : x.uuid = id
    · rw [if_pos hx] at hm
      intro hmeq
      have hmem : m.uuid ∈ xs.map Mesh.uuid := List.mem_map_of_mem Mesh.uuid hm
      rw [hmeq, ← hx] at hmem
      exact hnd.1 hmem
    · rw [if_neg hx] at hm
      rcases List.mem_cons.mp hm with h1 | h2
      · exact h1 ▸ hx
      · exact ih hnd.2 m h2

theorem removeFirstUuid_nodup {id : Nat} {l : List Mesh}
    (hnd : (l.map Mesh.uuid).Nodup) :
    ((removeFirstUuid id l).map Mesh.uuid).Nodup :=
  List.Nodup.sublist ((removeFirstUuid_sublist id l).map Mesh.uuid) hnd

theorem disposeMeshes_sublist (ids : List Nat) (l : List Mesh) :
    (disposeMeshes ids l).Sublist l := by
  induction ids generalizing l with
  | nil => simp [disposeMeshes]
  | cons id rest ih =>
    have h1 : disposeMeshes (id :: rest) l = disposeMeshes rest (removeFirstUuid id l) := rfl
    rw [h1]
    exact (ih (removeFirstUuid id l)).trans (removeFirstUuid_sublist id l)

theorem disposeMeshes_nodup {ids : List Nat} {l : List Mesh}
    (hnd : (l.map Mesh.uuid).Nodup) :
    ((disposeMeshes ids l).map Mesh.uuid).Nodup :=
  List.Nodup.sublist ((disposeMeshes_sublist ids l).map Mesh.uuid) hnd

theorem disposeMeshes_of_not_mem {ids : List Nat} {l : List Mesh}
    (h : ∀ m ∈ l, m.uuid ∉ ids) : disposeMeshes ids l = l := by
  induction ids with
  | nil => rfl
  | cons id rest ih =>
    have h1 : disposeMeshes (id :: rest) l = disposeMeshes rest (removeFirstUuid id l) := rfl
    have h2 : removeFirstUuid id l = l :=
      removeFirstUuid_of_not_mem (fun m hm => by
        intro he
        exact h m hm (he ▸ List.mem_cons_self id rest))
    rw [h1, h2]
    exact ih (fun m hm he => h m hm (List.mem_cons_of_mem id he))

theorem disposeMeshes_clears {ids : List Nat} {l : List Mesh}
    (hnd : (l.map Mesh.uuid).Nodup) :
    ∀ id ∈ ids, ∀ m ∈ disposeMeshes ids l, m.uuid ≠ id := by
  induction ids generalizing l with
  | nil => intro id hid; cases hid
  | cons i rest ih =>
    intro id hid m hm
    have h1 : disposeMeshes (i :: rest) l = disposeMeshes rest (removeFirstUuid i l) := rfl
    rw [h1] at hm
    rcases List.mem_cons.mp hid with h2 | h2
    · subst h2
      have hsub : m ∈ removeFirstUuid id l :=
        (disposeMeshes_sublist rest (removeFirstUuid id l)).mem hm
      exact removeFirstUuid_clears hnd m hsub
    · exact ih (removeFirstUuid_nodup hnd) id h2 m hm

theorem disposeMeshes_idem {ids : List Nat} {l : List Mesh}
    (hnd : (l.map Mesh.uuid).Nodup) :
    disposeMeshes ids (disposeMeshes ids l) = disposeMeshes ids l := by
  exact disposeMeshes_of_not_mem (fun m hm hin =>
    disposeMeshes_clears hnd m.uuid hin m hm rfl)

/-! residency lifecycle of streamed fragments, modelled from the spec -/

/-- Residency states of a fragment, from the spec's data model. -/
inductive Residency where
  | Unloaded
  | Loading
  | Resident
  | Evicting
deriving DecidableEq, Repr

/-- Modelled from the spec: the per-fragment residency steps taken by the
streaming loader (`OBF.IfcStreamer`, library code not under src/).  Spec 4.2:
a visible unloaded fragment is requested (`startLoad`); the loader callback
promotes it (`completeLoad`); hidden or lost residents are evicted
(`beginEvict` then `finishEvict`); a cancelled or failed in-flight load is
left Unloaded (`cancelLoad`, spec 4.2 cancellation and spec 7(a)). -/
inductive ResStep : Residency → Residency → Prop where
  | startLoad : ResStep Residency.Unloaded Residency.Loading
  | completeLoad : ResStep Residency.Loading Residency.Resident
  | cancelLoad : ResStep Residency.Loading Residency.Unloaded
  | beginEvict : ResStep Residency.Resident Residency.Evicting
  | finishEvict : ResStep Residency.Evicting Residency.Unloaded

/-- The edges of the cycle Unloaded→Loading→Resident→Evicting→Unloaded, the
only transitions the claim allows. -/
def cycleEdge : Residency → Residency → Bool
  | Residency.Unloaded, Residency.Loading => true
  | Residency.Loading, Residency.Resident => true
  | Residency.Resident, Residency.Evicting => true
  | Residency.Evicting, Residency.Unloaded => true
  | _, _ => false

/-- The cycle edges together with the cancellation and failure edge
Loading→Unloaded. -/
def allowedEdge (a b : Residency) : Bool :=
  cycleEdge a b || (a == Residency.Loading && b == Residency.Unloaded)

/-- Modelled from the spec: applying a load completion (library code not under
src/).  The completion matters only for a fragment still in Loading; with the
cooperative cancel flag raised the fragment is left Unloaded, never partially
Resident; otherwise it becomes Resident. -/
def applyLoadCompletion (cancel : Bool) (r : Residency) : Residency :=
  if r = Residency.Loading then
    (if cancel then Residency.Unloaded else Residency.Resident)
  else r

/-! highlighter, modelled from the spec -/

/-- The state of the Selection and Highlight Tracker: the current selection
and a count of camera-fit requests it has issued. -/
structure HighlightState where
  selection : List Nat
  fitCount : Nat
deriving DecidableEq, Repr

/-- The `highlighter.zoomToSelection = true` configuration from main.ts. -/
def zoomToSelection : Bool := true

/-- Modelled from the spec: `Highlighter.select` (library code not under
src/).  Selecting replaces the selection and, when `zoom` is set and the set
is nonempty, issues one camera fit; selecting the empty set clears all
highlight state and issues no fit. -/
def select (zoom : Bool) (ids : List Nat) (h : HighlightState) : HighlightState :=
  if ids.isEmpty then { selection := [], fitCount := h.fitCount }
  else { selection := ids
         fitCount := h.fitCount + (if zoom then 1 else 0) }

/-! streaming culler configuration -/

/-- The configurable fields of the streaming culler (`tilesLoader.culler`). -/
structure StreamCullerSettings where
  threshold : Nat
  maxHiddenTime : Nat
  maxLostTime : Nat
deriving DecidableEq, Repr

/-- Plain property assignment `tilesLoader.culler.threshold = v`. -/
def setThreshold (v : Nat) (c : StreamCullerSettings) : StreamCullerSettings :=
  { c with threshold := v }

/-- Plain property assignment `tilesLoader.culler.maxHiddenTime = v`; the
assignment performs no validation. -/
def setMaxHiddenTime (v : Nat) (c : StreamCullerSettings) : StreamCullerSettings :=
  { c with maxHiddenTime := v }

/-- Plain property assignment `tilesLoader.culler.maxLostTime = v`; the
assignment performs no validation. -/
def setMaxLostTime (v : Nat) (c : StreamCullerSettings) : StreamCullerSettings :=
  { c with maxLostTime := v }

/-- The streaming culler configuration installed by main.ts lines 96 to 98:
threshold 10, maxHiddenTime 1000, maxLostTime 40000, applied to whatever the
library's defaults were. -/
def tilesCullerSetup (c : StreamCullerSettings) : StreamCullerSettings :=
  setMaxLostTime 40000 (setMaxHiddenTime 1000 (setThreshold 10 c))

/-! concrete fixtures used by counterexamples and witnesses -/

/-- A mesh with uuid 0. -/
def m0 : Mesh := ⟨0⟩

/-- A mesh with uuid 5. -/
def m1 : Mesh := ⟨5⟩

/-- A mesh with uuid 2. -/
def m2 : Mesh := ⟨2⟩

/-- A non-streamed model without properties, one fragment (mesh `m0`). -/
def mA : Model := { id := 1, hasProperties := false, isStreamed := false, items := [⟨m0⟩] }

/-- A second non-streamed model, one fragment (mesh `m2`). -/
def mB : Model := { id := 3, hasProperties := false, isStreamed := false, items := [⟨m2⟩] }

/-- A non-streamed model with properties, one fragment (mesh `m1`). -/
def mP : Model := { id := 2, hasProperties := true, isStreamed := false, items := [⟨m1⟩] }

/-- The empty viewer state, before any model is loaded. -/
def st0 : ViewerState :=
  { meshes := [], cullerMeshes := [], cullerNeedsUpdate := false
    tilesCullerMeshes := [], tilesCullerNeedsUpdate := false, tilesCancel := false
    sceneChildren := [], pendingFits := 0, fitRequests := [] }

/-- A state in which model 7 with fragment mesh `m0` has been fully
registered: in the Fragment Store, in both cullers and in the scene graph. -/
def s1 : ViewerState :=
  { meshes := [m0], cullerMeshes := [m0], cullerNeedsUpdate := false
    tilesCullerMeshes := [m0], tilesCullerNeedsUpdate := false, tilesCancel := false
    sceneChildren := [7], pendingFits := 0, fitRequests := [] }

/-- The state after loading models `mA` and then `mB` while the camera-fit
timer of `mA` is still pending. -/
def traceBoth : ViewerState := loadedBody mB (loadedBody mA st0)

/-! additional small helpers -/

theorem mem_setAddNat_self (n : Nat) (l : List Nat) : n ∈ setAddNat n l := by
  unfold setAddNat
  split
  · assumption
  · simp

/-- The scene-graph children after a load event: on a rejected handler the
scene is left as it was. -/
def loadedScene (r : Except String ViewerState) (s : ViewerState) : List Nat :=
  match r with
  | Except.ok s2 => s2.sceneChildren
  | Except.error _ => s.sceneChildren

/-- The state after loading the non-streamed model `mA` into the empty state. -/
def afterLoadA : ViewerState :=
  match onFragmentsLoaded true mA st0 with
  | Except.ok s => s
  | Except.error _ => st0

/-! claim theorems -/

/-- Claim C1, counterexample: in state `s1` fragment mesh `m0` (uuid 0) is
registered in the Fragment Store, in both cullers and the scene holds its
model; the disposed event for uuid 0 removes it from the Fragment Store but
leaves it in the visibility culler, in the streaming culler, and leaves the
model in the scene graph — orphaned entries remain, contrary to the claim. -/
theorem C1_counterexample :
    m0 ∉ (onFragmentsDisposed [0] s1).meshes ∧
    m0 ∈ (onFragmentsDisposed [0] s1).cullerMeshes ∧
    m0 ∈ (onFragmentsDisposed [0] s1).tilesCullerMeshes ∧
    7 ∈ (onFragmentsDisposed [0] s1).sceneChildren := by decide

/-- Claim C1, amended: the disposed handler removes every mesh whose uuid is
in the event's fragment identifiers from the Fragment Store (`world.meshes`)
only; the cullers and the scene graph are not touched by the handler, and
(given distinct uuids) delivering the same disposed event a second time is a
no-op. -/
theorem C1_theorem (ids : List Nat) (s : ViewerState)
    (hnd : (s.meshes.map Mesh.uuid).Nodup) :
    (∀ m ∈ (onFragmentsDisposed ids s).meshes, m.uuid ∉ ids) ∧
    (onFragmentsDisposed ids s).cullerMeshes = s.cullerMeshes ∧
    (onFragmentsDisposed ids s).tilesCullerMeshes = s.tilesCullerMeshes ∧
    (onFragmentsDisposed ids s).sceneChildren = s.sceneChildren ∧
    onFragmentsDisposed ids (onFragmentsDisposed ids s) = onFragmentsDisposed ids s := by
  refine ⟨?_, rfl, rfl, rfl, ?_⟩
  · intro m hm hin
    exact disposeMeshes_clears hnd m.uuid hin m hm rfl
  · show ({ s with meshes := disposeMeshes ids (disposeMeshes ids s.meshes) } : ViewerState) =
      { s with meshes := disposeMeshes ids s.meshes }
    rw [disposeMeshes_idem hnd]

/-- Claim C1, witness: the amended theorem applied at uuid 0 and state `s1`. -/
theorem C1_witness :
    onFragmentsDisposed [0] (onFragmentsDisposed [0] s1) = onFragmentsDisposed [0] s1 :=
  (C1_theorem [0] s1 (by decide)).2.2.2.2

/-- Claim C2, counterexample: loading the non-streamed model `mA` (fragment
mesh `m0`) adds `m0` to the Fragment Store and the visibility culler, but the
streaming culler receives nothing — the fragments are not added to both
cullers as claimed. -/
theorem C2_counterexample :
    onFragmentsLoaded true mA st0 = Except.ok afterLoadA ∧
    m0 ∈ afterLoadA.meshes ∧
    m0 ∈ afterLoadA.cullerMeshes ∧
    m0 ∉ afterLoadA.tilesCullerMeshes := by
  refine ⟨rfl, by decide, by decide, by decide⟩

/-- Claim C2, amended: for a non-streamed model whose indexing step does not
fail, every fragment mesh is added to the Fragment Store and to the
visibility culler (the streaming culler receives nothing), the model is added
to the scene graph, and exactly one camera fit is scheduled with a 50 ms
settling delay; when its timer fires, the single issued request covers
`world.meshes`, which contains every fragment mesh of the model. -/
theorem C2_theorem (m : Model) (s : ViewerState) (indexOk : Bool)
    (hstr : m.isStreamed = false)
    (hidx : m.hasProperties = true → indexOk = true) :
    onFragmentsLoaded indexOk m s = Except.ok (loadedBody m s) ∧
    (∀ f ∈ m.items, f.mesh ∈ (loadedBody m s).meshes) ∧
    (∀ f ∈ m.items, f.mesh ∈ (loadedBody m s).cullerMeshes) ∧
    m.id ∈ (loadedBody m s).sceneChildren ∧
    (loadedBody m s).pendingFits = s.pendingFits + 1 ∧
    (loadedBody m s).tilesCullerMeshes = s.tilesCullerMeshes ∧
    (loadedBody m s).fitRequests = s.fitRequests ∧
    (fireFitTimer (loadedBody m s)).fitRequests =
      s.fitRequests ++ [⟨(loadedBody m s).meshes, fitMargin⟩] ∧
    fitDelayMs = 50 := by
  have hguard : ¬(m.hasProperties = true ∧ indexOk = false) := by
    rintro ⟨hp, hio⟩
    rw [hidx hp] at hio
    simp at hio
  have hl : loadedBody m s = { s with
      meshes := addMeshes m.items s.meshes
      cullerMeshes := addMeshes m.items s.cullerMeshes
      sceneChildren := setAddNat m.id s.sceneChildren
      pendingFits := s.pendingFits + 1 } := by
    simp [loadedBody, hstr]
  refine ⟨?_, ?_, ?_, ?_, ?_, ?_, ?_, ?_, rfl⟩
  · simp [onFragmentsLoaded, hguard]
  · intro f hf
    rw [hl]
    exact mem_addMeshes_of_mem_frags s.meshes hf
  · intro f hf
    rw [hl]
    exact mem_addMeshes_of_mem_frags s.cullerMeshes hf
  · rw [hl]
    exact mem_setAddNat_self m.id s.sceneChildren
  · rw [hl]
  · rw [hl]
  · rw [hl]
  · rw [hl]
    simp [fireFitTimer]

/-- Claim C2, witness: the amended theorem applied to model `mA` in the empty
state; the fired timer issues the fit over the store. -/
theorem C2_witness :
    (fireFitTimer (loadedBody mA st0)).fitRequests =
      st0.fitRequests ++ [⟨(loadedBody mA st0).meshes, fitMargin⟩] :=
  (C2_theorem mA st0 true rfl (fun _ => rfl)).2.2.2.2.2.2.2.1

/-- Claim C3, counterexample: when indexing fails for model `mP`
(`hasProperties`), the handler rejects with the indexing error — the failure
propagates and the model is never added to the scene, contrary to the claim
that geometry still displays and the failure is not propagated. -/
theorem C3_counterexample :
    onFragmentsLoaded false mP st0 = Except.error indexError ∧
    mP.id ∉ loadedScene (onFragmentsLoaded false mP st0) st0 := by
  refine ⟨rfl, by decide⟩

/-- Claim C3, amended: the handler has no `try`/`catch` around
`indexer.process`/`classifier.byEntity`, so when the semantic step fails for
a model with `hasProperties`, the handler aborts before any geometry
registration: the model is not added to the scene by the handler and the
failure propagates as a rejected promise; nothing logs or swallows it. -/
theorem C3_theorem (m : Model) (s : ViewerState) (hp : m.hasProperties = true) :
    onFragmentsLoaded false m s = Except.error indexError ∧
    loadedScene (onFragmentsLoaded false m s) s = s.sceneChildren := by
  constructor
  · simp [onFragmentsLoaded, hp]
  · simp [onFragmentsLoaded, hp, loadedScene]

/-- Claim C3, witness: the amended theorem applied to model `mP` in the empty
state. -/
theorem C3_witness :
    onFragmentsLoaded false mP st0 = Except.error indexError ∧
    loadedScene (onFragmentsLoaded false mP st0) st0 = st0.sceneChildren :=
  C3_theorem mP st0 rfl

/-- Claim C4: the camera-rest listener marks the visibility culler and the
streaming culler for recomputation and raises the cooperative cancel flag;
with that flag raised, applying a load completion leaves the fragment
Unloaded (never partially Resident), while without it the fragment becomes
Resident. -/
theorem C4_theorem : ∀ s : ViewerState,
    (restListener s).cullerNeedsUpdate = true ∧
    (restListener s).tilesCullerNeedsUpdate = true ∧
    (restListener s).tilesCancel = true ∧
    applyLoadCompletion (restListener s).tilesCancel Residency.Loading = Residency.Unloaded ∧
    applyLoadCompletion false Residency.Loading = Residency.Resident :=
  fun _ => ⟨rfl, rfl, rfl, rfl, rfl⟩

/-- Claim C5, counterexample: a reachable execution reaches Loading from
Unloaded, and from Loading the cancellation step moves the fragment straight
back to Unloaded — an edge that is not on the claimed cycle. -/
theorem C5_counterexample :
    Relation.ReflTransGen ResStep Residency.Unloaded Residency.Loading ∧
    ResStep Residency.Loading Residency.Unloaded ∧
    cycleEdge Residency.Loading Residency.Unloaded = false :=
  ⟨Relation.ReflTransGen.single ResStep.startLoad, ResStep.cancelLoad, rfl⟩

/-- Claim C5, amended: every residency transition follows the cycle
Unloaded→Loading→Resident→Evicting→Unloaded or the additional edge
Loading→Unloaded taken when an in-flight load is cancelled or fails; no other
edge occurs. -/
theorem C5_theorem : ∀ a b : Residency, ResStep a b → allowedEdge a b = true := by
  intro a b h
  cases h <;> rfl

/-- Claim C5, witness: the amended theorem applied to the load-request step. -/
theorem C5_witness : allowedEdge Residency.Unloaded Residency.Loading = true :=
  C5_theorem Residency.Unloaded Residency.Loading ResStep.startLoad

/-- Claim C6, counterexample: the disposed event for uuid 0 in state `s1`
removes a fragment but leaves the visibility culler's `needsUpdate` flag
down, and loading model `mA` (a fragment addition) also leaves it down — so
fragment removal and addition do not signal the culler dirty as claimed. -/
theorem C6_counterexample :
    (onFragmentsDisposed [0] s1).meshes = [] ∧
    (onFragmentsDisposed [0] s1).cullerNeedsUpdate = false ∧
    (loadedBody mA st0).cullerNeedsUpdate = false := by decide

/-- Claim C6, amended: the visibility culler is signalled dirty by the
camera-rest listener only; the loaded handler adds fragments to the culler
without setting `needsUpdate`, the disposed handler does not touch the culler
at all, and (modelled from the spec) a culler update evaluates exactly when
`needsUpdate` is set, doing nothing otherwise. -/
theorem C6_theorem : ∀ (s : ViewerState) (ids : List Nat) (m : Model),
    (restListener s).cullerNeedsUpdate = true ∧
    (onFragmentsDisposed ids s).cullerNeedsUpdate = s.cullerNeedsUpdate ∧
    (loadedBody m s).cullerNeedsUpdate = s.cullerNeedsUpdate ∧
    (cullerUpdate s).2 = s.cullerNeedsUpdate ∧
    cullerUpdate { s with cullerNeedsUpdate := false } =
      ({ s with cullerNeedsUpdate := false }, false) := by
  intro s ids m
  refine ⟨rfl, rfl, ?_, ?_, rfl⟩
  · cases hm : m.isStreamed <;> simp [loadedBody, hm]
  · cases hc : s.cullerNeedsUpdate <;> simp [cullerUpdate, hc]

/-- Claim C7: with the installed configuration `zoomToSelection = true`,
selecting the empty identifier set clears all highlight state and issues no
camera fit. -/
theorem C7_theorem : ∀ h : HighlightState,
    (select zoomToSelection [] h).selection = [] ∧
    (select zoomToSelection [] h).fitCount = h.fitCount ∧
    zoomToSelection = true :=
  fun _ => ⟨rfl, rfl, rfl⟩

/-- Claim C8: the streaming culler configuration installed by main.ts has
maxHiddenTime 1000 and maxLostTime 40000, so maxLostTime exceeds
maxHiddenTime; and the assignments enforce nothing — the setters accept any
pair of values, including ones violating the relation. -/
theorem C8_theorem : ∀ c : StreamCullerSettings,
    (tilesCullerSetup c).maxHiddenTime = 1000 ∧
    (tilesCullerSetup c).maxLostTime = 40000 ∧
    (tilesCullerSetup c).maxHiddenTime < (tilesCullerSetup c).maxLostTime ∧
    (∀ (h l : Nat) (c2 : StreamCullerSettings),
      (setMaxLostTime l (setMaxHiddenTime h c2)).maxHiddenTime = h ∧
      (setMaxLostTime l (setMaxHiddenTime h c2)).maxLostTime = l) := by
  intro c
  refine ⟨rfl, rfl, ?_, fun _ _ _ => ⟨rfl, rfl⟩⟩
  show (1000 : Nat) < 40000
  decide

/-- Claim C9: the disposed handler leaves every component other than the
Fragment Store untouched; it only ever removes meshes (the resulting store is
a sublist of the old one); identifiers matching no mesh are skipped without
effect; and (given distinct uuids) re-delivering the event leaves the state
unchanged. -/
theorem C9_theorem (ids : List Nat) (s : ViewerState)
    (hnd : (s.meshes.map Mesh.uuid).Nodup) :
    (onFragmentsDisposed ids s).cullerMeshes = s.cullerMeshes ∧
    (onFragmentsDisposed ids s).cullerNeedsUpdate = s.cullerNeedsUpdate ∧
    (onFragmentsDisposed ids s).tilesCullerMeshes = s.tilesCullerMeshes ∧
    (onFragmentsDisposed ids s).tilesCullerNeedsUpdate = s.tilesCullerNeedsUpdate ∧
    (onFragmentsDisposed ids s).tilesCancel = s.tilesCancel ∧
    (onFragmentsDisposed ids s).sceneChildren = s.sceneChildren ∧
    (onFragmentsDisposed ids s).pendingFits = s.pendingFits ∧
    (onFragmentsDisposed ids s).fitRequests = s.fitRequests ∧
    (onFragmentsDisposed ids s).meshes.Sublist s.meshes ∧
    ((∀ m ∈ s.meshes, m.uuid ∉ ids) → onFragmentsDisposed ids s = s) ∧
    onFragmentsDisposed ids (onFragmentsDisposed ids s) = onFragmentsDisposed ids s := by
  refine ⟨rfl, rfl, rfl, rfl, rfl, rfl, rfl, rfl, disposeMeshes_sublist ids s.meshes, ?_, ?_⟩
  · intro hmem
    show ({ s with meshes := disposeMeshes ids s.meshes } : ViewerState) = s
    rw [disposeMeshes_of_not_mem hmem]
  · show ({ s with meshes := disposeMeshes ids (disposeMeshes ids s.meshes) } : ViewerState) =
      { s with meshes := disposeMeshes ids s.meshes }
    rw [disposeMeshes_idem hnd]

/-- Claim C9, witness: the theorem applied at identifiers `[0, 9]` (one
matching, one matching nothing) and state `s1`; the store only shrinks. -/
theorem C9_witness :
    (onFragmentsDisposed [0, 9] s1).meshes.Sublist s1.meshes :=
  (C9_theorem [0, 9] s1 (by decide)).2.2.2.2.2.2.2.2.1

/-- Claim C10: firing the delayed camera fit issues exactly one request
computed over the whole of `world.meshes` as it stands at firing time, with
margin 4/5, consuming one pending timer and leaving the store unchanged. -/
theorem C10_theorem (s : ViewerState) (h : s.pendingFits ≠ 0) :
    (fireFitTimer s).fitRequests = s.fitRequests ++ [⟨s.meshes, fitMargin⟩] ∧
    (fireFitTimer s).pendingFits = s.pendingFits - 1 ∧
    (fireFitTimer s).meshes = s.meshes := by
  simp [fireFitTimer, h]

/-- Claim C10, witness: after loading `mA` and then `mB` while the first
timer is still pending, the fired fit covers the current store, which holds
the fragment meshes of both models. -/
theorem C10_witness :
    ((fireFitTimer traceBoth).fitRequests =
      traceBoth.fitRequests ++ [⟨traceBoth.meshes, fitMargin⟩] ∧
    (fireFitTimer traceBoth).pendingFits = traceBoth.pendingFits - 1 ∧
    (fireFitTimer traceBoth).meshes = traceBoth.meshes) ∧
    m0 ∈ traceBoth.meshes ∧ m2 ∈ traceBoth.meshes ∧ traceBoth.pendingFits = 2 := by
  refine ⟨C10_theorem traceBoth (by decide), by decide, by decide, by decide⟩
